import Mathlib

/-!
Verification development for the core of the `asv` benchmark harness:
a shallow embedding of `asv/environment.py` (matrix expansion, environment
identity and lifecycle) and `asv/results.py` (result records, their storage
layout and the results-tree index), together with theorems about the
properties the specification states for them.

Conventions of the embedding:
- Python dicts appear as association lists (`List (key × value)`); dict
  lookup is `List.lookup`, dict assignment is `dictSet` (replace or append).
- Byte strings appear as `List Nat`.
- Code that can raise returns `Except String` (the message mirrors the
  Python exception message) or `Option`.
- Host-dependent probes (`util.which`, `import virtualenv`) are
  parameters gathered in a `Host` record; external subprocess effects of
  the lifecycle (virtualenv creation, pip calls) are tracked as counters
  in an `EnvState` record, with the outcome of the external create step
  given by a `CreateResult` parameter.
-/

/-- Ordering of characters by code point, as Python compares the characters
of two strings. -/
def charsLe : List Char → List Char → Bool
  | [], _ => true
  | _ :: _, [] => false
  | a :: as, b :: bs => if a = b then charsLe as bs else decide (a < b)

/-- Lexicographic string comparison, as Python `<=` on `str`. -/
def strLe (a b : String) : Bool := charsLe a.data b.data

/-- Comparison of optional version strings, `None` ordering first as in
Python 2 tuple comparison. -/
def optLe : Option String → Option String → Bool
  | none, _ => true
  | some _, none => false
  | some a, some b => strLe a b

/-- Python tuple comparison on `(package, version)` pairs, as used by
`reqs.sort()` in `Environment.name` (environment.py line 118). -/
def reqLe (a b : String × Option String) : Bool :=
  if a.1 = b.1 then optLe a.2 b.2 else strLe a.1 b.1

/-- Propositional form of `reqLe`, for use with `List.insertionSort`. -/
def ReqLe (a b : String × Option String) : Prop := reqLe a b = true

instance : DecidableRel ReqLe :=
  fun a b => inferInstanceAs (Decidable (reqLe a b = true))

/-- Host-system facts the environment code probes: `util.which` (the list
of executables found for a command) and whether, and where, the
`virtualenv` module can be imported. -/
structure Host where
  which : String → List String
  virtualenv : Option String

/-- Embedding of the `Environment` object of environment.py: its
constructor-assigned fields plus the two lifecycle flags `_is_setup` and
`_requirements_installed` (initialised `False` at lines 108-109). -/
structure Environment where
  executable : List String
  env_dir : String
  python : String
  requirements : List (String × Option String)
  virtualenv_path : String
  is_setup : Bool
  requirements_installed : Bool
deriving DecidableEq

/-- Embedding of `Environment.__init__` (environment.py lines 73-109): it
probes the host for a `python<version>` executable (raising when none is
found) and for the `virtualenv` module (raising when it cannot be
imported), and otherwise only records its arguments; it provisions
nothing. -/
def Environment.init (host : Host) (env_dir python : String)
    (requirements : List (String × Option String)) : Except String Environment :=
  let executables := host.which ("python" ++ python)
  if executables.length = 0 then
    Except.error ("No executable found for version " ++ python)
  else
    match host.virtualenv with
    | none => Except.error "virtualenv must be installed to run asv"
    | some vp =>
        Except.ok { executable := executables, env_dir := env_dir, python := python,
                    requirements := requirements, virtualenv_path := vp,
                    is_setup := false, requirements_installed := false }

/-- Embedding of the `Environment.name` property (environment.py lines
111-124): "py" plus the interpreter version, then the requirement items
sorted by Python tuple comparison, each rendered `name ++ version` or bare
`name` for an unconstrained (`None`) version, joined with "-". -/
def Environment.name (e : Environment) : String :=
  let reqs := List.insertionSort ReqLe e.requirements
  String.intercalate "-"
    (("py" ++ e.python) ::
      reqs.map (fun kv =>
        match kv.2 with
        | some v => kv.1 ++ v
        | none => kv.1))

/-- Directory of the environment, `os.path.join(env_dir, name)`
(environment.py lines 95-96). -/
def Environment.path (e : Environment) : String := e.env_dir ++ "/" ++ e.name

/-- Embedding of the nested `iter_matrix` generator of `get_environments`
(environment.py lines 38-58): remove one key, expand the rest recursively,
then extend every partial configuration with each listed version of the
removed key, or with the `None` sentinel when its version list is empty. -/
def iter_matrix : List (String × List String) → List (List (String × Option String))
  | [] => [[]]
  | kv :: rest =>
      (iter_matrix rest).flatMap fun result =>
        if kv.2.length ≠ 0 then
          kv.2.map (fun value => result ++ [(kv.1, some value)])
        else
          [result ++ [(kv.1, none)]]

/-- Traversal of a list under a fallible function, the first failure
aborting the whole enumeration, as an exception escaping a Python
generator would. -/
def exceptMap {α β : Type} (f : α → Except String β) : List α → Except String (List β)
  | [] => Except.ok []
  | x :: xs =>
      match f x with
      | Except.error e => Except.error e
      | Except.ok y =>
          match exceptMap f xs with
          | Except.error e => Except.error e
          | Except.ok ys => Except.ok (y :: ys)

/-- Embedding of `get_environments` (environment.py lines 22-62): an
`Environment` for every interpreter in `pythons` paired with every
configuration produced by `iter_matrix`; the first failing constructor
aborts the whole enumeration. -/
def get_environments (host : Host) (env_dir : String) (pythons : List String)
    (matrix : List (String × List String)) : Except String (List Environment) :=
  exceptMap (fun pc => Environment.init host env_dir pc.1 pc.2)
    (pythons.flatMap fun python =>
      (iter_matrix matrix).map fun configuration => (python, configuration))

/-- Outcome of the external `virtualenv` create step invoked by
`Environment.setup` via `util.check_call`: success, or failure having
left (or not left) a half-created environment directory behind. -/
inductive CreateResult
  | success
  | failure (half_created : Bool)
deriving DecidableEq

/-- World state threaded through the lifecycle methods: the environment
object, the relevant filesystem facts, and counters for the external
effects performed (virtualenv creations, pip upgrade / uninstall /
install invocations). -/
structure EnvState where
  env : Environment
  env_dir_exists : Bool
  path_exists : Bool
  create_calls : Nat
  upgrade_calls : Nat
  uninstall_calls : Nat
  install_calls : Nat
deriving DecidableEq

/-- Embedding of `Environment.setup` (environment.py lines 134-160):
return immediately when `_is_setup`; ensure the root directory exists;
invoke the external create step only when the environment directory is
absent; on failure of that step remove any half-created directory and
re-raise; set `_is_setup` only on success. -/
def setup (cr : CreateResult) (s : EnvState) : EnvState × Except String Unit :=
  if s.env.is_setup then (s, Except.ok ())
  else
    let s1 := if s.env_dir_exists then s else { s with env_dir_exists := true }
    if s1.path_exists then
      ({ s1 with env := { s1.env with is_setup := true } }, Except.ok ())
    else
      match cr with
      | CreateResult.success =>
          ({ s1 with create_calls := s1.create_calls + 1, path_exists := true,
                     env := { s1.env with is_setup := true } }, Except.ok ())
      | CreateResult.failure half_created =>
          let s2 := { s1 with create_calls := s1.create_calls + 1,
                              path_exists := half_created }
          let s3 := if s2.path_exists then { s2 with path_exists := false } else s2
          (s3, Except.error ("Failure creating virtualenv for " ++ s1.env.name))

/-- Embedding of `Environment.install_requirements` (environment.py lines
162-176): return immediately when `_requirements_installed`; otherwise run
`setup`, upgrade setuptools, upgrade or pin-install every requirement, and
set the flag. -/
def install_requirements (cr : CreateResult) (s : EnvState) : EnvState × Except String Unit :=
  if s.env.requirements_installed then (s, Except.ok ())
  else
    match setup cr s with
    | (s1, Except.error e) => (s1, Except.error e)
    | (s1, Except.ok _) =>
        let s2 := { s1 with upgrade_calls := s1.upgrade_calls + 1 }
        let s3 := { s2 with upgrade_calls := s2.upgrade_calls + s2.env.requirements.length }
        ({ s3 with env := { s3.env with requirements_installed := true } }, Except.ok ())

/-- Embedding of `Environment.install_project` (environment.py lines
216-224): run `install_requirements`, then unconditionally uninstall any
prior copy of the project and install the working copy again. -/
def install_project (cr : CreateResult) (s : EnvState) : EnvState × Except String Unit :=
  match install_requirements cr s with
  | (s1, Except.error e) => (s1, Except.error e)
  | (s1, Except.ok _) =>
      let s2 := { s1 with uninstall_calls := s1.uninstall_calls + 1 }
      ({ s2 with install_calls := s2.install_calls + 1 }, Except.ok ())

/-- Python dict assignment `d[k] = v` on an association list: replace the
value of an existing key in place, or append a new binding. -/
def dictSet {β : Type} (k : String) (v : β) : List (String × β) → List (String × β)
  | [] => [(k, v)]
  | kv :: rest => if kv.1 = k then (k, v) :: rest else kv :: dictSet k v rest

/-- Embedding of the `Results` object of results.py (lines 73-131): the
constructor-assigned fields, including the computed relative filename. -/
structure Results where
  params : List (String × String)
  env : Environment
  commit_hash : String
  date : Int
  results : List (String × Int)
  profiles : List (String × List Nat)
  python : String
  filename : String
deriving DecidableEq

/-- Schema version stamped on every saved document, the `api_version`
class attribute (results.py line 78). -/
def Results.api_version : Nat := 1

/-- Embedding of `Results.__init__` (results.py lines 80-110): record the
arguments, take `python` from the environment, start with empty results
and profiles, and compute the relative storage path
`<machine>/<first-8-of-commit-hash>-<environment-name>.json`; a params
mapping without a "machine" key raises `KeyError`. -/
def Results.init (params : List (String × String)) (env : Environment)
    (commit_hash : String) (date : Int) : Except String Results :=
  match params.lookup "machine" with
  | none => Except.error "KeyError: machine"
  | some machine =>
      Except.ok { params := params, env := env, commit_hash := commit_hash,
                  date := date, results := [], profiles := [],
                  python := env.python,
                  filename := machine ++ "/" ++ commit_hash.take 8 ++ "-"
                    ++ env.name ++ ".json" }

/-- Embedding of `Results.add_time` (results.py lines 132-144): upsert a
numeric measurement. -/
def Results.add_time (r : Results) (benchmark_name : String) (time : Int) : Results :=
  { r with results := dictSet benchmark_name time r.results }

/-- Embedding of `Results.add_profile` (results.py lines 146-159): store
`base64.b64encode(zlib.compress(profile))` under the benchmark name. The
external codecs `zlib.compress` and `base64.b64encode` are passed in as
functions on byte strings. -/
def Results.add_profile (compress b64encode : List Nat → List Nat) (r : Results)
    (benchmark_name : String) (profile : List Nat) : Results :=
  { r with profiles := dictSet benchmark_name (b64encode (compress profile)) r.profiles }

/-- Embedding of `Results.get_profile` (results.py lines 161-166): return
`zlib.decompress(base64.b64decode(stored))`; a name with no stored profile
raises `KeyError`, modelled as `none`. -/
def Results.get_profile (decompress b64decode : List Nat → List Nat) (r : Results)
    (benchmark_name : String) : Option (List Nat) :=
  (r.profiles.lookup benchmark_name).map fun enc => decompress (b64decode enc)

/-- Embedding of `Results.has_profile` (results.py lines 168-172). -/
def Results.has_profile (r : Results) (benchmark_name : String) : Bool :=
  (r.profiles.lookup benchmark_name).isSome

/-- Shape of the document handed to `util.write_json` by `Results.save`
(results.py lines 185-193), with the stamped `api_version`. -/
structure ResultDoc where
  results : List (String × Int)
  params : List (String × String)
  requirements : List (String × Option String)
  commit_hash : String
  date : Int
  python : String
  profiles : List (String × List Nat)
  api_version : Nat
deriving DecidableEq

/-- Embedding of `Results.save` (results.py lines 174-193): the path
written, `os.path.join(result_dir, filename)`, and the fixed-shape
document written there, stamped with the current `api_version`; the JSON
codec itself is external. -/
def Results.save (result_dir : String) (r : Results) : String × ResultDoc :=
  (result_dir ++ "/" ++ r.filename,
   { results := r.results, params := r.params, requirements := r.env.requirements,
     commit_hash := r.commit_hash, date := r.date, python := r.python,
     profiles := r.profiles, api_version := Results.api_version })

/-- Splitting of a character list at a separator character, as Python
`str.split(sep)`: `n` separators give `n + 1` (possibly empty) pieces. -/
def splitOnChar (c : Char) : List Char → List (List Char)
  | [] => [[]]
  | x :: xs =>
      match splitOnChar c xs with
      | [] => if x = c then [[], []] else [[x]]
      | piece :: rest =>
          if x = c then [] :: piece :: rest else (x :: piece) :: rest

/-- Embedding of `os.path.join(*path.split(os.path.sep)[-2:])` from
`Results.load` (results.py line 215): the last two "/"-separated
components of the path, re-joined with "/". -/
def last_two_components (path : String) : String :=
  let comps := (splitOnChar '/' path.data).map fun l => String.mk l
  String.intercalate "/" (comps.drop (comps.length - 2))

/-- Embedding of `Results.load` (results.py lines 195-216): check the
stored schema version (the version handling of the external `util.load_json`
is modelled from the spec, which makes an unmigratable version mismatch a
hard load failure), rebuild an `Environment` from the stored python and
requirements with an empty root directory, rebuild the record through the
constructor, then overwrite its results, profiles and remembered relative
filename from the document and the path it was read from. -/
def Results.load (host : Host) (path : String) (d : ResultDoc) : Except String Results :=
  if d.api_version ≠ Results.api_version then
    Except.error "cannot handle api_version of results file"
  else
    match Environment.init host "" d.python d.requirements with
    | Except.error e => Except.error e
    | Except.ok env =>
        match Results.init d.params env d.commit_hash d.date with
        | Except.error e => Except.error e
        | Except.ok obj =>
            Except.ok { obj with results := d.results, profiles := d.profiles,
                                 filename := last_two_components path }

/-- Step of the scan loop of `find_latest_result_hash` (results.py lines
65-68): replace the running `(latest_date, latest_hash)` accumulator only
when the record's date is strictly greater. -/
def latest_step (acc : Int × String) (r : String × Int) : Int × String :=
  if r.2 > acc.1 then (r.2, r.1) else acc

/-- Embedding of `find_latest_result_hash` (results.py lines 57-70) over
the list of `(commit_hash, date)` pairs that `iter_existing_hashes` yields
for the machine's directory: a linear scan starting from date `0` and hash
`""`. -/
def find_latest_result_hash (records : List (String × Int)) : String :=
  (records.foldl latest_step (0, "")).2

/-- Sample host on which every probed executable exists and `virtualenv`
is importable. -/
def hostSample : Host :=
  { which := fun _ => ["/usr/bin/python3.6"], virtualenv := some "/v.py" }

/-- Sample host on which no executable is found for any probe. -/
def hostNoPython : Host :=
  { which := fun _ => [], virtualenv := some "/v.py" }

/-- Sample freshly constructed environment for python 3.6 with one pinned
requirement. -/
def envSample : Environment :=
  { executable := ["/usr/bin/python3.6"], env_dir := "/env", python := "3.6",
    requirements := [("requests", some "2.9")], virtualenv_path := "/v.py",
    is_setup := false, requirements_installed := false }

/-- Sample environment whose requirement mapping lists A before B. -/
def envPermA : Environment :=
  { envSample with requirements := [("A", some "1"), ("B", some "2")] }

/-- Sample environment whose requirement mapping lists B before A. -/
def envPermB : Environment :=
  { envSample with requirements := [("B", some "2"), ("A", some "1")] }

/-- Sample lifecycle state before any provisioning. -/
def stateFresh : EnvState :=
  { env := envSample, env_dir_exists := false, path_exists := false,
    create_calls := 0, upgrade_calls := 0, uninstall_calls := 0, install_calls := 0 }

/-- Sample result record, as built by the constructor for machine
"bench1" at commit `abcdef1234567890` in `envSample`. -/
def resultsSample : Results :=
  { params := [("machine", "bench1")], env := envSample,
    commit_hash := "abcdef1234567890", date := 1000, results := [],
    profiles := [], python := "3.6",
    filename := "bench1/abcdef12-py3.6-requests2.9.json" }

/-- Sample persisted result document at the current schema version. -/
def docSample : ResultDoc :=
  { results := [("bm", 7)], params := [("machine", "bench1")],
    requirements := [("requests", some "2.9")], commit_hash := "abcdef1234567890",
    date := 1000, python := "3.6", profiles := [("bm", [10, 20])], api_version := 1 }

/-!
Theorems. First the order-theoretic facts about the tuple comparison that
`Environment.name` sorts with, then the claims.
-/

/-- Totality of the character-list comparison. -/
theorem charsLe_total : ∀ xs ys : List Char, charsLe xs ys = true ∨ charsLe ys xs = true := by
  intro xs
  induction xs with
  | nil => intro ys; left; rfl
  | cons x xs ih =>
    intro ys
    cases ys with
    | nil => right; rfl
    | cons y ys =>
      by_cases hxy : x = y
      · subst hxy
        simpa [charsLe] using ih ys
      · rcases lt_or_gt_of_ne hxy with h | h
        · left; simp [charsLe, hxy, h]
        · right; simp [charsLe, Ne.symm hxy, h]

/-- Transitivity of the character-list comparison. -/
theorem charsLe_trans : ∀ xs ys zs : List Char,
    charsLe xs ys = true → charsLe ys zs = true → charsLe xs zs = true := by
  intro xs
  induction xs with
  | nil => intro ys zs h1 h2; rfl
  | cons x xs ih =>
    intro ys zs h1 h2
    cases ys with
    | nil => simp [charsLe] at h1
    | cons y ys =>
      cases zs with
      | nil => simp [charsLe] at h2
      | cons z zs =>
        by_cases hxy : x = y <;> by_cases hyz : y = z
        · subst hxy; subst hyz
          simp [charsLe] at h1 h2 ⊢
          exact ih ys zs h1 h2
        · subst hxy
          simp [charsLe, hyz] at h2 ⊢
          exact h2
        · subst hyz
          simp [charsLe, hxy] at h1 ⊢
          exact h1
        · simp [charsLe, hxy] at h1
          simp [charsLe, hyz] at h2
          have hxz : x < z := lt_trans h1 h2
          simp [charsLe, ne_of_lt hxz, hxz]

/-- Antisymmetry of the character-list comparison. -/
theorem charsLe_antisymm : ∀ xs ys : List Char,
    charsLe xs ys = true → charsLe ys xs = true → xs = ys := by
  intro xs
  induction xs with
  | nil =>
    intro ys h1 h2
    cases ys with
    | nil => rfl
    | cons y ys => simp [charsLe] at h2
  | cons x xs ih =>
    intro ys h1 h2
    cases ys with
    | nil => simp [charsLe] at h1
    | cons y ys =>
      by_cases hxy : x = y
      · subst hxy
        simp [charsLe] at h1 h2
        rw [ih ys h1 h2]
      · simp [charsLe, hxy] at h1
        simp [charsLe, Ne.symm hxy] at h2
        exact absurd h2 (lt_asymm h1)

/-- Totality of the string comparison. -/
theorem strLe_total (a b : String) : strLe a b = true ∨ strLe b a = true :=
  charsLe_total a.data b.data

/-- Transitivity of the string comparison. -/
theorem strLe_trans {a b c : String} (h1 : strLe a b = true) (h2 : strLe b c = true) :
    strLe a c = true :=
  charsLe_trans a.data b.data c.data h1 h2

/-- Antisymmetry of the string comparison. -/
theorem strLe_antisymm {a b : String} (h1 : strLe a b = true) (h2 : strLe b a = true) :
    a = b :=
  String.ext (charsLe_antisymm a.data b.data h1 h2)

/-- Totality of the optional-version comparison. -/
theorem optLe_total (a b : Option String) : optLe a b = true ∨ optLe b a = true := by
  cases a with
  | none => left; rfl
  | some x =>
    cases b with
    | none => right; rfl
    | some y => exact strLe_total x y

/-- Transitivity of the optional-version comparison. -/
theorem optLe_trans {a b c : Option String} (h1 : optLe a b = true) (h2 : optLe b c = true) :
    optLe a c = true := by
  cases a with
  | none => rfl
  | some x =>
    cases b with
    | none => simp [optLe] at h1
    | some y =>
      cases c with
      | none => simp [optLe] at h2
      | some z => exact strLe_trans h1 h2

/-- Antisymmetry of the optional-version comparison. -/
theorem optLe_antisymm {a b : Option String} (h1 : optLe a b = true) (h2 : optLe b a = true) :
    a = b := by
  cases a with
  | none => cases b with
    | none => rfl
    | some y => simp [optLe] at h2
  | some x =>
    cases b with
    | none => simp [optLe] at h1
    | some y => rw [strLe_antisymm h1 h2]

/-- Totality of the requirement-pair comparison. -/
theorem reqLe_total (a b : String × Option String) : reqLe a b = true ∨ reqLe b a = true := by
  by_cases h : a.1 = b.1
  · simp [reqLe, h]
    exact optLe_total a.2 b.2
  · simp [reqLe, h, Ne.symm h]
    exact strLe_total a.1 b.1

/-- Transitivity of the requirement-pair comparison. -/
theorem reqLe_trans {a b c : String × Option String}
    (h1 : reqLe a b = true) (h2 : reqLe b c = true) : reqLe a c = true := by
  by_cases hab : a.1 = b.1 <;> by_cases hbc : b.1 = c.1
  · rw [reqLe, if_pos (hab.trans hbc)]
    rw [reqLe, if_pos hab] at h1
    rw [reqLe, if_pos hbc] at h2
    exact optLe_trans h1 h2
  · rw [reqLe, if_neg (hab ▸ hbc)]
    rw [reqLe, if_neg hbc] at h2
    exact hab ▸ h2
  · rw [reqLe, if_neg (hbc ▸ hab)]
    rw [reqLe, if_neg hab] at h1
    exact hbc ▸ h1
  · rw [reqLe, if_neg hab] at h1
    rw [reqLe, if_neg hbc] at h2
    have hac : strLe a.1 c.1 = true := strLe_trans h1 h2
    have hne : a.1 ≠ c.1 := by
      intro he
      exact hab (strLe_antisymm h1 (he ▸ h2))
    rw [reqLe, if_neg hne]
    exact hac

/-- Antisymmetry of the requirement-pair comparison. -/
theorem reqLe_antisymm {a b : String × Option String}
    (h1 : reqLe a b = true) (h2 : reqLe b a = true) : a = b := by
  by_cases hab : a.1 = b.1
  · rw [reqLe, if_pos hab] at h1
    rw [reqLe, if_pos hab.symm] at h2
    have h2' : a.2 = b.2 := optLe_antisymm h1 h2
    exact Prod.ext hab h2'
  · rw [reqLe, if_neg hab] at h1
    rw [reqLe, if_neg (Ne.symm hab)] at h2
    exact absurd (strLe_antisymm h1 h2) hab

/-- Sorting with the requirement-pair comparison is a canonical form:
permuted inputs sort identically. -/
theorem insertionSort_reqLe_eq_of_perm {l1 l2 : List (String × Option String)}
    (h : l1.Perm l2) : List.insertionSort ReqLe l1 = List.insertionSort ReqLe l2 :=
  @List.eq_of_perm_of_sorted _ ReqLe ⟨fun _ _ => reqLe_antisymm⟩ _ _
    ((List.perm_insertionSort ReqLe l1).trans (h.trans (List.perm_insertionSort ReqLe l2).symm))
    (@List.sorted_insertionSort _ ReqLe _ ⟨reqLe_total⟩ ⟨fun _ _ _ => reqLe_trans⟩ l1)
    (@List.sorted_insertionSort _ ReqLe _ ⟨reqLe_total⟩ ⟨fun _ _ _ => reqLe_trans⟩ l2)

/-- Claim C4: the environment identity string is a deterministic function
of the interpreter version and the requirement mapping that sorts the
requirement entries before rendering, so two environments whose
requirement mappings are equal as key-value multisets (in particular,
permutations of one another) and whose interpreters agree get the same
identity, regardless of insertion order. -/
theorem environment_name_insertion_order_invariant (e1 e2 : Environment)
    (hpy : e1.python = e2.python) (hreq : e1.requirements.Perm e2.requirements) :
    e1.name = e2.name := by
  unfold Environment.name
  rw [insertionSort_reqLe_eq_of_perm hreq, hpy]

/-- Witness for claim C4: the two sample environments list the same
requirements in opposite insertion orders and get the same identity. -/
theorem environment_name_insertion_order_invariant_witness :
    (envPermA.python = envPermB.python ∧ envPermA.requirements.Perm envPermB.requirements
      ∧ envPermA.requirements ≠ envPermB.requirements)
    ∧ envPermA.name = envPermB.name :=
  ⟨⟨rfl, by decide, by decide⟩,
    environment_name_insertion_order_invariant envPermA envPermB rfl (by decide)⟩

/-- Evaluation of the fallible traversal when every element succeeds. -/
theorem exceptMap_ok_of_forall_ok {α β : Type} (f : α → Except String β) (g : α → β) :
    ∀ l : List α, (∀ x ∈ l, f x = Except.ok (g x)) → exceptMap f l = Except.ok (l.map g) := by
  intro l
  induction l with
  | nil => intro _; rfl
  | cons x xs ih =>
    intro h
    have hx : f x = Except.ok (g x) := h x (List.mem_cons_self x xs)
    have hxs := ih fun y hy => h y (List.mem_cons_of_mem x hy)
    simp [exceptMap, hx, hxs]

/-- Length of a flatMap whose pieces all have the same length. -/
theorem length_flatMap_const {α β : Type} (f : α → List β) (k : Nat)
    (h : ∀ x, (f x).length = k) : ∀ l : List α, (l.flatMap f).length = l.length * k := by
  intro l
  induction l with
  | nil => simp
  | cons x xs ih =>
    simp only [List.flatMap_cons, List.length_append, h, ih, List.length_cons]
    ring

/-- Count of the configurations produced by matrix expansion: the product
over the matrix keys of `max 1 (length of the version list)`. -/
theorem iter_matrix_length : ∀ m : List (String × List String),
    (iter_matrix m).length = (m.map (fun e => max 1 e.2.length)).prod := by
  intro m
  induction m with
  | nil => rfl
  | cons kv rest ih =>
    have hk : ∀ r : List (String × Option String),
        ((if kv.2.length ≠ 0 then kv.2.map (fun value => r ++ [(kv.1, some value)])
          else [r ++ [(kv.1, none)]]).length) = max 1 kv.2.length := by
      intro r
      cases hv : kv.2 with
      | nil => simp
      | cons v vs => simp [Nat.max_eq_right (Nat.succ_le_succ (Nat.zero_le _))]
    show ((iter_matrix rest).flatMap _).length = _
    rw [length_flatMap_const _ (max 1 kv.2.length) hk, ih]
    simp [Nat.mul_comm]

/-- Every expanded configuration carries the `None` sentinel for every
matrix key whose version list is empty. -/
theorem iter_matrix_unconstrained : ∀ (m : List (String × List String))
    (c : List (String × Option String)), c ∈ iter_matrix m →
    ∀ k : String, (k, ([] : List String)) ∈ m → (k, (none : Option String)) ∈ c := by
  intro m
  induction m with
  | nil => intro c _ k hk; simp at hk
  | cons kv rest ih =>
    intro c hc k hk
    simp only [iter_matrix, List.mem_flatMap] at hc
    obtain ⟨r, hr, hcr⟩ := hc
    rcases List.mem_cons.mp hk with hk1 | hk2
    · have h2 : kv.2 = [] := by rw [← hk1]
      rw [h2] at hcr
      simp at hcr
      rw [hcr]
      have h1 : kv.1 = k := by rw [← hk1]
      rw [h1]
      exact List.mem_append_right r (List.mem_singleton.mpr rfl)
    · have hmem : (k, (none : Option String)) ∈ r := ih r hr k hk2
      by_cases h0 : kv.2.length ≠ 0
      · rw [if_pos h0] at hcr
        obtain ⟨v, _, hcv⟩ := List.mem_map.mp hcr
        rw [← hcv]
        exact List.mem_append_left _ hmem
      · rw [if_neg h0] at hcr
        simp at hcr
        rw [hcr]
        exact List.mem_append_left _ hmem

/-- Claim C1: for every non-empty interpreter list and every matrix (on a
host providing each requested interpreter and the virtualenv module),
matrix expansion succeeds and produces exactly
`|interpreters| * prod over keys of max 1 (version list length)`
environments, and a key with an empty version list contributes the
unconstrained `None` sentinel entry to every produced configuration. -/
theorem get_environments_count (host : Host) (env_dir : String)
    (pythons : List String) (matrix : List (String × List String)) (vp : String)
    (hne : pythons ≠ [])
    (hok : ∀ p ∈ pythons, (host.which ("python" ++ p)).length ≠ 0)
    (hv : host.virtualenv = some vp) :
    ∃ envs, get_environments host env_dir pythons matrix = Except.ok envs ∧
      envs.length = pythons.length * (matrix.map (fun e => max 1 e.2.length)).prod ∧
      ∀ env ∈ envs, ∀ k, (k, ([] : List String)) ∈ matrix →
        (k, (none : Option String)) ∈ env.requirements := by
  set pairs := pythons.flatMap
    (fun python => (iter_matrix matrix).map fun configuration => (python, configuration))
    with hpairs
  set g : String × List (String × Option String) → Environment := fun pc =>
    { executable := host.which ("python" ++ pc.1), env_dir := env_dir, python := pc.1,
      requirements := pc.2, virtualenv_path := vp,
      is_setup := false, requirements_installed := false } with hg
  have hfst : ∀ pc ∈ pairs, pc.1 ∈ pythons ∧ pc.2 ∈ iter_matrix matrix := by
    intro pc hpc
    rw [hpairs] at hpc
    simp only [List.mem_flatMap, List.mem_map] at hpc
    obtain ⟨p, hp, c, hc, he⟩ := hpc
    rw [← he]
    exact ⟨hp, hc⟩
  have hinit : ∀ pc ∈ pairs, Environment.init host env_dir pc.1 pc.2 = Except.ok (g pc) := by
    intro pc hpc
    have h1 := (hfst pc hpc).1
    unfold Environment.init
    rw [if_neg (hok pc.1 h1), hv]
  have hmain : get_environments host env_dir pythons matrix = Except.ok (pairs.map g) := by
    unfold get_environments
    rw [← hpairs]
    exact exceptMap_ok_of_forall_ok _ g pairs hinit
  refine ⟨pairs.map g, hmain, ?_, ?_⟩
  · rw [List.length_map]
    have hlen : pairs.length = pythons.length * (iter_matrix matrix).length := by
      rw [hpairs]
      exact length_flatMap_const _ _ (fun p => List.length_map _ _) pythons
    rw [hlen, iter_matrix_length]
  · intro env henv k hk
    obtain ⟨pc, hpc, he⟩ := List.mem_map.mp henv
    have h2 := (hfst pc hpc).2
    rw [← he]
    exact iter_matrix_unconstrained matrix pc.2 h2 k hk

/-- Witness for claim C1: interpreters 2.7 and 3.4 against the matrix
numpy in two versions and cython unconstrained give 2 x 2 x 1 = 4
environments. -/
theorem get_environments_count_witness :
    (["2.7", "3.4"] ≠ ([] : List String)) ∧
    ∃ envs, get_environments hostSample "/env" ["2.7", "3.4"]
        [("numpy", ["1.7", "1.8"]), ("cython", [])] = Except.ok envs ∧
      envs.length = (["2.7", "3.4"] : List String).length *
        (([("numpy", ["1.7", "1.8"]), ("cython", [])] : List (String × List String)).map
          (fun e => max 1 e.2.length)).prod ∧
      ∀ env ∈ envs, ∀ k, (k, ([] : List String)) ∈
          [("numpy", ["1.7", "1.8"]), ("cython", [])] →
        (k, (none : Option String)) ∈ env.requirements :=
  ⟨by decide, get_environments_count hostSample "/env" _ _ "/v.py" (by decide) (by decide) rfl⟩

/-- Counterexample for claim C2: on a fresh state, a first
`install_project` completes, yet a second call on the resulting state is
not a no-op — it performs the uninstall/install work again (the install
counter rises to 2 and the state changes). -/
theorem install_project_not_noop_counterexample :
    ((install_project CreateResult.success stateFresh).2 = Except.ok () ∧
      ((install_project CreateResult.success stateFresh).1).install_calls = 1 ∧
      ((install_project CreateResult.success stateFresh).1).uninstall_calls = 1) ∧
    ((install_project CreateResult.success
        ((install_project CreateResult.success stateFresh).1)).1).install_calls = 2 ∧
    (install_project CreateResult.success
        ((install_project CreateResult.success stateFresh).1)).1 ≠
      (install_project CreateResult.success stateFresh).1 := by
  refine ⟨⟨rfl, rfl, rfl⟩, rfl, ?_⟩
  decide

/-- A successful `setup` leaves the environment marked set up. -/
theorem setup_ok_is_setup (cr : CreateResult) (s : EnvState)
    (h : (setup cr s).2 = Except.ok ()) : ((setup cr s).1).env.is_setup = true := by
  by_cases h0 : s.env.is_setup
  · simp [setup, h0]
  · by_cases hp : s.path_exists
    · by_cases hd : s.env_dir_exists <;> simp [setup, h0, hp, hd]
    · cases cr with
      | success => by_cases hd : s.env_dir_exists <;> simp [setup, h0, hp, hd]
      | failure half_created =>
          exfalso
          by_cases hd : s.env_dir_exists <;> cases half_created <;>
            simp [setup, h0, hp, hd] at h

/-- A successful `install_requirements` leaves the requirements flag
set. -/
theorem install_requirements_ok_flag (cr : CreateResult) (s : EnvState)
    (h : (install_requirements cr s).2 = Except.ok ()) :
    ((install_requirements cr s).1).env.requirements_installed = true := by
  by_cases h0 : s.env.requirements_installed
  · simp [install_requirements, h0]
  · rcases hs : setup cr s with ⟨s1, e⟩
    cases e with
    | error msg =>
        rw [install_requirements, if_neg h0, hs] at h
        simp at h
    | ok u =>
        cases u
        rw [install_requirements, if_neg h0, hs]

/-- Evaluation of `install_project` on a state whose requirements are
already installed: one further uninstall and one further install, and
nothing else. -/
theorem install_project_of_flag (cr : CreateResult) (s : EnvState)
    (h : s.env.requirements_installed = true) :
    install_project cr s =
      ({ s with uninstall_calls := s.uninstall_calls + 1,
                install_calls := s.install_calls + 1 }, Except.ok ()) := by
  have hi : install_requirements cr s = (s, Except.ok ()) := by
    rw [install_requirements, if_pos h]
  simp [install_project, hi]

/-- Claim C2 (amended): `setup` and `install_requirements` are
idempotent once their state has been reached: after any successful call —
including from a fresh state, or one provisioned but with requirements
not yet installed — repeating the operation returns the state unchanged
and performs no further external work, so the external create step runs
exactly once across repeated `setup` calls and the pip upgrades run
exactly once across repeated `install_requirements` calls.
`install_project` is not idempotent: a repeated call uninstalls and
reinstalls the project again. -/
theorem lifecycle_idempotence_amended (cr cr' : CreateResult) (s : EnvState)
    (hsetup : (setup cr s).2 = Except.ok ())
    (hreq : (install_requirements cr s).2 = Except.ok ()) :
    setup cr' (setup cr s).1 = ((setup cr s).1, Except.ok ()) ∧
    ((setup cr' (setup cr s).1).1).create_calls = ((setup cr s).1).create_calls ∧
    install_requirements cr' (install_requirements cr s).1
      = ((install_requirements cr s).1, Except.ok ()) ∧
    ((install_requirements cr' (install_requirements cr s).1).1).upgrade_calls
      = ((install_requirements cr s).1).upgrade_calls ∧
    (install_project cr s).2 = Except.ok () ∧
    ((install_project cr' (install_project cr s).1).1).install_calls
      = ((install_project cr s).1).install_calls + 1 ∧
    ((install_project cr' (install_project cr s).1).1).uninstall_calls
      = ((install_project cr s).1).uninstall_calls + 1 := by
  have h1 : ((setup cr s).1).env.is_setup = true := setup_ok_is_setup cr s hsetup
  have hs2 : setup cr' (setup cr s).1 = ((setup cr s).1, Except.ok ()) := by
    rw [setup, if_pos h1]
  have h2 : ((install_requirements cr s).1).env.requirements_installed = true :=
    install_requirements_ok_flag cr s hreq
  have hi2 : install_requirements cr' (install_requirements cr s).1
      = ((install_requirements cr s).1, Except.ok ()) := by
    rw [install_requirements, if_pos h2]
  refine ⟨hs2, by rw [hs2], hi2, by rw [hi2], ?_, ?_, ?_⟩ <;>
  · rcases hi : install_requirements cr s with ⟨s1, e⟩
    rw [hi] at hreq
    cases e with
    | error msg => simp at hreq
    | ok u =>
        cases u
        rw [hi] at h2
        have h3 : (({ s1 with
              uninstall_calls := s1.uninstall_calls + 1,
              install_calls := s1.install_calls + 1 } : EnvState)).env.requirements_installed
            = true := h2
        have hip1 : install_project cr s
            = ({ s1 with
                  uninstall_calls := s1.uninstall_calls + 1,
                  install_calls := s1.install_calls + 1 }, Except.ok ()) := by
          rw [install_project, hi]
        have hip2 := install_project_of_flag cr'
          ({ s1 with
              uninstall_calls := s1.uninstall_calls + 1,
              install_calls := s1.install_calls + 1 }) h3
        simp [hip1, hip2]

/-- Witness for the amended claim C2: from the sample fresh state (not
yet provisioned, requirements not yet installed), `setup` and
`install_requirements` succeed, repeating either is a no-op with no
further create or upgrade calls, and a repeated `install_project`
installs again. -/
theorem lifecycle_idempotence_amended_witness :
    ((setup CreateResult.success stateFresh).2 = Except.ok () ∧
     (install_requirements CreateResult.success stateFresh).2 = Except.ok ()) ∧
    (setup CreateResult.success (setup CreateResult.success stateFresh).1
       = ((setup CreateResult.success stateFresh).1, Except.ok ()) ∧
     ((setup CreateResult.success
         (setup CreateResult.success stateFresh).1).1).create_calls
       = ((setup CreateResult.success stateFresh).1).create_calls ∧
     install_requirements CreateResult.success
         (install_requirements CreateResult.success stateFresh).1
       = ((install_requirements CreateResult.success stateFresh).1, Except.ok ()) ∧
     ((install_requirements CreateResult.success
         (install_requirements CreateResult.success stateFresh).1).1).upgrade_calls
       = ((install_requirements CreateResult.success stateFresh).1).upgrade_calls ∧
     (install_project CreateResult.success stateFresh).2 = Except.ok () ∧
     ((install_project CreateResult.success
         (install_project CreateResult.success stateFresh).1).1).install_calls
       = ((install_project CreateResult.success stateFresh).1).install_calls + 1 ∧
     ((install_project CreateResult.success
         (install_project CreateResult.success stateFresh).1).1).uninstall_calls
       = ((install_project CreateResult.success stateFresh).1).uninstall_calls + 1) :=
  ⟨⟨rfl, rfl⟩,
   lifecycle_idempotence_amended CreateResult.success CreateResult.success stateFresh rfl rfl⟩

/-- Claim C6: when provisioning is attempted (the environment is not yet
set up and its directory does not exist) and the external create step
fails, `setup` leaves no half-created environment directory behind,
re-raises the error to the caller, invoked the create step exactly once
(no internal retry), and does not mark the environment set up. -/
theorem setup_failure_cleanup (half_created : Bool) (s : EnvState)
    (h1 : s.env.is_setup = false) (h2 : s.path_exists = false) :
    ((setup (CreateResult.failure half_created) s).1).path_exists = false ∧
    (∃ e, (setup (CreateResult.failure half_created) s).2 = Except.error e) ∧
    ((setup (CreateResult.failure half_created) s).1).create_calls = s.create_calls + 1 ∧
    ((setup (CreateResult.failure half_created) s).1).env.is_setup = false := by
  cases hd : s.env_dir_exists <;> cases half_created <;>
    simp [setup, h1, h2, hd]

/-- Witness for claim C6: a failing create step that did leave a
half-created directory, on the sample fresh state. -/
theorem setup_failure_cleanup_witness :
    (stateFresh.env.is_setup = false ∧ stateFresh.path_exists = false) ∧
    (((setup (CreateResult.failure true) stateFresh).1).path_exists = false ∧
     (∃ e, (setup (CreateResult.failure true) stateFresh).2 = Except.error e) ∧
     ((setup (CreateResult.failure true) stateFresh).1).create_calls
        = stateFresh.create_calls + 1 ∧
     ((setup (CreateResult.failure true) stateFresh).1).env.is_setup = false) :=
  ⟨⟨rfl, rfl⟩, setup_failure_cleanup true stateFresh rfl rfl⟩

/-- Invariant of the scan loop of `find_latest_result_hash`: the final
accumulator is the initial one or comes from a record of the list, its
date component never decreases, and it bounds every date in the list. -/
theorem latest_foldl_spec : ∀ (l : List (String × Int)) (acc : Int × String),
    (l.foldl latest_step acc = acc ∨ ∃ r ∈ l, l.foldl latest_step acc = (r.2, r.1)) ∧
    acc.1 ≤ (l.foldl latest_step acc).1 ∧
    ∀ q ∈ l, q.2 ≤ (l.foldl latest_step acc).1 := by
  intro l
  induction l with
  | nil =>
    intro acc
    exact ⟨Or.inl rfl, le_refl _, by intro q hq; simp at hq⟩
  | cons r l ih =>
    intro acc
    have hfold : (r :: l).foldl latest_step acc = l.foldl latest_step (latest_step acc r) := rfl
    obtain ⟨ih1, ih2, ih3⟩ := ih (latest_step acc r)
    have hstep_ge : acc.1 ≤ (latest_step acc r).1 := by
      unfold latest_step
      split
      · exact le_of_lt (by assumption)
      · exact le_refl _
    have hstep_r : r.2 ≤ (latest_step acc r).1 := by
      unfold latest_step
      split
      · exact le_refl _
      · exact le_of_not_lt (by assumption)
    refine ⟨?_, by rw [hfold]; exact le_trans hstep_ge ih2, ?_⟩
    · rcases ih1 with he | ⟨q, hq, he⟩
      · rw [hfold, he]
        unfold latest_step
        split
        · exact Or.inr ⟨r, List.mem_cons_self r l, rfl⟩
        · exact Or.inl rfl
      · exact Or.inr ⟨q, List.mem_cons_of_mem r hq, by rw [hfold]; exact he⟩
    · intro q hq
      rw [hfold]
      rcases List.mem_cons.mp hq with h | h
      · exact le_trans (h ▸ hstep_r) ih2
      · exact ih3 q h

/-- The scan loop never moves off an accumulator that already bounds
every date in the list. -/
theorem latest_foldl_id : ∀ (l : List (String × Int)) (acc : Int × String),
    (∀ r ∈ l, r.2 ≤ acc.1) → l.foldl latest_step acc = acc := by
  intro l
  induction l with
  | nil => intro acc _; rfl
  | cons r l ih =>
    intro acc h
    have hr : r.2 ≤ acc.1 := h r (List.mem_cons_self r l)
    have hstep : latest_step acc r = acc := by
      unfold latest_step
      rw [if_neg (not_lt_of_ge hr)]
    show l.foldl latest_step (latest_step acc r) = acc
    rw [hstep]
    exact ih acc fun q hq => h q (List.mem_cons_of_mem r hq)

/-- Counterexample for claim C7: on the one-record list with date 0 the
records are non-empty and the record of maximal date is ("h1", 0), yet the
scan returns "", which is no record's hash — because the running maximum
starts at 0 and only strictly greater dates replace it. -/
theorem latest_hash_nonpositive_counterexample :
    find_latest_result_hash [("h1", 0)] = "" ∧
    ([("h1", 0)] : List (String × Int)) ≠ [] ∧
    (∀ r ∈ ([("h1", 0)] : List (String × Int)), ∀ q ∈ ([("h1", 0)] : List (String × Int)),
      q.2 ≤ r.2) ∧
    (∀ r ∈ ([("h1", 0)] : List (String × Int)), r.1 ≠ "") := by
  exact ⟨rfl, by decide, by decide, by decide⟩

/-- Claim C7 (amended): `find_latest_result_hash` returns "" on an empty
record list; when some record's date is strictly positive it returns the
hash of a record whose date is maximal; and on the record set
[(h1, 100), (h2, 300), (h3, 200)] it returns h2. (The unamended claim for
records whose dates are all at most 0 fails, see the counterexample.) -/
theorem find_latest_result_hash_amended (records : List (String × Int)) :
    (records = [] → find_latest_result_hash records = "") ∧
    ((∃ r ∈ records, 0 < r.2) →
      ∃ r ∈ records, r.1 = find_latest_result_hash records ∧
        ∀ q ∈ records, q.2 ≤ r.2) ∧
    (∀ h1 h2 h3 : String,
      find_latest_result_hash [(h1, 100), (h2, 300), (h3, 200)] = h2) := by
  refine ⟨?_, ?_, ?_⟩
  · intro h
    rw [h]
    rfl
  · rintro ⟨r0, hr0, hpos⟩
    obtain ⟨hd, _, hall⟩ := latest_foldl_spec records (0, "")
    rcases hd with he | ⟨q, hq, he⟩
    · exfalso
      have hle := hall r0 hr0
      rw [he] at hle
      exact absurd (lt_of_lt_of_le hpos hle) (lt_irrefl 0)
    · refine ⟨q, hq, ?_, ?_⟩
      · unfold find_latest_result_hash
        rw [he]
      · intro p hp
        have hle := hall p hp
        rw [he] at hle
        exact hle
  · intro h1 h2 h3
    rfl

/-- Witness for the amended claim C7 on a concrete two-record list and on
the empty list. -/
theorem find_latest_result_hash_amended_witness :
    ((∃ r ∈ ([("a", 5), ("b", 3)] : List (String × Int)), 0 < r.2) ∧
      ∃ r ∈ ([("a", 5), ("b", 3)] : List (String × Int)),
        r.1 = find_latest_result_hash [("a", 5), ("b", 3)] ∧
        ∀ q ∈ ([("a", 5), ("b", 3)] : List (String × Int)), q.2 ≤ r.2) ∧
    find_latest_result_hash ([] : List (String × Int)) = "" :=
  ⟨⟨⟨("a", 5), by decide, by decide⟩,
    (find_latest_result_hash_amended [("a", 5), ("b", 3)]).2.1 ⟨("a", 5), by decide, by decide⟩⟩,
   (find_latest_result_hash_amended []).1 rfl⟩

/-- Claim C10: `find_latest_result_hash` only ever selects a record whose
date is strictly positive: when every record's date is at most 0 it
returns "" even though records exist, because the running maximum starts
at 0 and only strictly greater dates replace it. -/
theorem latest_hash_requires_positive_date (records : List (String × Int))
    (hne : records ≠ []) (hnp : ∀ r ∈ records, r.2 ≤ 0) :
    find_latest_result_hash records = "" := by
  unfold find_latest_result_hash
  rw [latest_foldl_id records (0, "") hnp]

/-- Witness for claim C10 on a non-empty list of records dated at or
before the epoch. -/
theorem latest_hash_requires_positive_date_witness :
    (([("h1", -5), ("h2", 0)] : List (String × Int)) ≠ [] ∧
      ∀ r ∈ ([("h1", -5), ("h2", 0)] : List (String × Int)), r.2 ≤ 0) ∧
    find_latest_result_hash [("h1", -5), ("h2", 0)] = "" :=
  ⟨⟨by decide, by decide⟩,
   latest_hash_requires_positive_date [("h1", -5), ("h2", 0)] (by decide) (by decide)⟩

/-- Looking a key up after a dict assignment yields the assigned value. -/
theorem lookup_dictSet {β : Type} (k : String) (v : β) :
    ∀ l : List (String × β), (dictSet k v l).lookup k = some v := by
  intro l
  induction l with
  | nil => simp [dictSet, List.lookup]
  | cons kv rest ih =>
    obtain ⟨k2, v2⟩ := kv
    by_cases h : k2 = k
    · simp [dictSet, h, List.lookup]
    · have hne : (k == k2) = false := beq_eq_false_iff_ne.mpr (Ne.symm h)
      simp [dictSet, h, List.lookup, hne, ih]

/-- Claim C8: for every byte payload, including the empty one, storing a
profile and reading it back on the same record returns exactly the
payload: `add_profile` applies compress-then-encode and `get_profile`
applies the inverse composition decode-then-decompress, given that the
external codecs invert (`zlib.decompress` undoes `zlib.compress` and
`base64.b64decode` undoes `base64.b64encode`). -/
theorem profile_roundtrip (compress decompress b64encode b64decode : List Nat → List Nat)
    (hzlib : ∀ x, decompress (compress x) = x)
    (hb64 : ∀ y, b64decode (b64encode y) = y)
    (r : Results) (benchmark_name : String) (payload : List Nat) :
    Results.get_profile decompress b64decode
      (Results.add_profile compress b64encode r benchmark_name payload) benchmark_name
      = some payload := by
  unfold Results.get_profile Results.add_profile
  simp [lookup_dictSet, hb64, hzlib]

/-- Witness for claim C8 with identity codecs and the empty payload. -/
theorem profile_roundtrip_witness :
    ((∀ x : List Nat, id (id x) = x) ∧ (∀ y : List Nat, id (id y) = y)) ∧
    Results.get_profile id id
      (Results.add_profile id id resultsSample "time_sample" []) "time_sample" = some [] :=
  ⟨⟨fun _ => rfl, fun _ => rfl⟩,
   profile_roundtrip id id id id (fun _ => rfl) (fun _ => rfl) resultsSample "time_sample" []⟩

/-- Claim C9: a record built by the constructor gets the canonical
relative storage path machine, then a path separator, then the first 8
characters of the commit hash, a hyphen, the environment identity and the
".json" suffix; in particular machine "bench1", commit hash
abcdef1234567890 and identity py3.6-requests2.9 yield
bench1/abcdef12-py3.6-requests2.9.json. -/
theorem results_filename_layout (params : List (String × String)) (env : Environment)
    (commit_hash : String) (date : Int) (machine : String)
    (hm : params.lookup "machine" = some machine) :
    (∃ r, Results.init params env commit_hash date = Except.ok r ∧
      r.filename = machine ++ "/" ++ commit_hash.take 8 ++ "-" ++ env.name ++ ".json") ∧
    ∃ r0, Results.init [("machine", "bench1")] envSample "abcdef1234567890" 0
        = Except.ok r0 ∧
      r0.filename = "bench1/abcdef12-py3.6-requests2.9.json" := by
  constructor
  · unfold Results.init
    rw [hm]
    exact ⟨_, rfl, rfl⟩
  · exact ⟨_, rfl, rfl⟩

/-- Witness for claim C9 at the sample machine parameters. -/
theorem results_filename_layout_witness :
    ([("machine", "bench1")].lookup "machine" = some "bench1") ∧
    ∃ r, Results.init [("machine", "bench1")] envSample "abcdef1234567890" 1000
        = Except.ok r ∧
      r.filename = "bench1" ++ "/" ++ ("abcdef1234567890" : String).take 8 ++ "-"
        ++ envSample.name ++ ".json" :=
  ⟨rfl, (results_filename_layout [("machine", "bench1")] envSample "abcdef1234567890" 1000
      "bench1" rfl).1⟩

/-- Evaluation of `Results.load` on a well-formed document at the current
schema version, on a host that provides the stored interpreter and the
virtualenv module: the reconstructed record spelled out in full. -/
theorem load_ok (host : Host) (path : String) (d : ResultDoc) (machine vp : String)
    (hver : d.api_version = Results.api_version)
    (hm : d.params.lookup "machine" = some machine)
    (hx : (host.which ("python" ++ d.python)).length ≠ 0)
    (hv : host.virtualenv = some vp) :
    Results.load host path d = Except.ok
      { params := d.params,
        env := { executable := host.which ("python" ++ d.python), env_dir := "",
                 python := d.python, requirements := d.requirements,
                 virtualenv_path := vp, is_setup := false,
                 requirements_installed := false },
        commit_hash := d.commit_hash, date := d.date, results := d.results,
        profiles := d.profiles, python := d.python,
        filename := last_two_components path } := by
  have henv : Environment.init host "" d.python d.requirements = Except.ok
      ({ executable := host.which ("python" ++ d.python), env_dir := "",
         python := d.python, requirements := d.requirements, virtualenv_path := vp,
         is_setup := false, requirements_installed := false } : Environment) := by
    unfold Environment.init
    rw [if_neg hx, hv]
  have hres : Results.init d.params
      ({ executable := host.which ("python" ++ d.python), env_dir := "",
         python := d.python, requirements := d.requirements, virtualenv_path := vp,
         is_setup := false, requirements_installed := false } : Environment)
      d.commit_hash d.date = Except.ok
      { params := d.params,
        env := { executable := host.which ("python" ++ d.python), env_dir := "",
                 python := d.python, requirements := d.requirements,
                 virtualenv_path := vp, is_setup := false,
                 requirements_installed := false },
        commit_hash := d.commit_hash, date := d.date, results := [], profiles := [],
        python := d.python,
        filename := machine ++ "/" ++ d.commit_hash.take 8 ++ "-"
          ++ ({ executable := host.which ("python" ++ d.python), env_dir := "",
                python := d.python, requirements := d.requirements,
                virtualenv_path := vp, is_setup := false,
                requirements_installed := false } : Environment).name ++ ".json" } := by
    unfold Results.init
    rw [hm]
  unfold Results.load
  rw [if_neg (fun h => h hver)]
  simp only [henv, hres]

/-- Claim C3: saving a record to a results root and loading the written
file back (on a host providing the stored interpreter and the virtualenv
module) yields a record equal to the original in its results mapping,
profiles mapping, commit hash, date and python version fields. -/
theorem save_load_roundtrip (host : Host) (result_dir : String) (r : Results)
    (machine vp : String)
    (hm : r.params.lookup "machine" = some machine)
    (hx : (host.which ("python" ++ r.python)).length ≠ 0)
    (hv : host.virtualenv = some vp) :
    ∃ r2, Results.load host (Results.save result_dir r).1 (Results.save result_dir r).2
        = Except.ok r2 ∧
      r2.results = r.results ∧ r2.profiles = r.profiles ∧
      r2.commit_hash = r.commit_hash ∧ r2.date = r.date ∧ r2.python = r.python :=
  ⟨_, load_ok host (Results.save result_dir r).1 (Results.save result_dir r).2 machine vp
      rfl hm hx hv, rfl, rfl, rfl, rfl, rfl⟩

/-- Witness for claim C3 at the sample record, results root and host. -/
theorem save_load_roundtrip_witness :
    (resultsSample.params.lookup "machine" = some "bench1" ∧
     (hostSample.which ("python" ++ resultsSample.python)).length ≠ 0 ∧
     hostSample.virtualenv = some "/v.py") ∧
    ∃ r2, Results.load hostSample (Results.save "results" resultsSample).1
        (Results.save "results" resultsSample).2 = Except.ok r2 ∧
      r2.results = resultsSample.results ∧ r2.profiles = resultsSample.profiles ∧
      r2.commit_hash = resultsSample.commit_hash ∧ r2.date = resultsSample.date ∧
      r2.python = resultsSample.python :=
  ⟨⟨rfl, by decide, rfl⟩,
   save_load_roundtrip hostSample "results" resultsSample "bench1" "/v.py"
     rfl (by decide) rfl⟩

/-- Counterexample for claim C5: the same well-formed document loads
successfully on a host that has a python3.6 executable but fails with a
missing-executable error on a host without one — so reconstructing the
owning-environment reference does depend on, and can fail because of, the
state of the host system. -/
theorem load_host_dependence_counterexample :
    (Results.load hostSample "results/bench1/abcdef12-py3.6-requests2.9.json"
        docSample).isOk = true ∧
    Results.load hostNoPython "results/bench1/abcdef12-py3.6-requests2.9.json" docSample
      = Except.error "No executable found for version 3.6" :=
  ⟨rfl, rfl⟩

/-- Claim C5 (amended): `load` rebuilds the record's owning-environment
reference purely from the stored interpreter version and requirements as
an unprovisioned placeholder (empty root directory, lifecycle flags both
false — no provisioning step runs); the construction does, however,
probe the host and fails when the stored interpreter's executable or the
virtualenv module is missing. -/
theorem load_placeholder_env_amended (host : Host) (path : String) (d : ResultDoc)
    (machine vp : String)
    (hver : d.api_version = Results.api_version)
    (hm : d.params.lookup "machine" = some machine)
    (hx : (host.which ("python" ++ d.python)).length ≠ 0)
    (hv : host.virtualenv = some vp) :
    ∃ r, Results.load host path d = Except.ok r ∧
      r.env.python = d.python ∧ r.env.requirements = d.requirements ∧
      r.env.env_dir = "" ∧ r.env.is_setup = false ∧
      r.env.requirements_installed = false :=
  ⟨_, load_ok host path d machine vp hver hm hx hv, rfl, rfl, rfl, rfl, rfl⟩

/-- Witness for the amended claim C5 at the sample document and host. -/
theorem load_placeholder_env_amended_witness :
    (docSample.api_version = Results.api_version ∧
     docSample.params.lookup "machine" = some "bench1" ∧
     (hostSample.which ("python" ++ docSample.python)).length ≠ 0 ∧
     hostSample.virtualenv = some "/v.py") ∧
    ∃ r, Results.load hostSample "results/bench1/f.json" docSample = Except.ok r ∧
      r.env.python = docSample.python ∧ r.env.requirements = docSample.requirements ∧
      r.env.env_dir = "" ∧ r.env.is_setup = false ∧
      r.env.requirements_installed = false :=
  ⟨⟨rfl, rfl, by decide, rfl⟩,
   load_placeholder_env_amended hostSample "results/bench1/f.json" docSample "bench1" "/v.py"
     rfl rfl (by decide) rfl⟩
